import Mathlib

/-!
# A verification development for `main.go`

`main.go` is a small HTTP service: two content generators (`getJoke`,
`getMadlib`), four read-only AWS inventory operations with their handlers,
a health endpoint and the server start-up in `main`.

The embedding is shallow.  Go values become Lean values as follows.

* A Go `error` is its message, the string `err.Error()` yields; `fmt.Errorf`
  with the verb `%v` splices that message into the format string.
* A function returning `(T, error)` returns `Except String T`.
* A Go slice is `GoSlice`: `none` is the nil slice, `some xs` a non-nil slice.
* A Go pointer `*T` is `Option T`, `none` being the nil pointer.
* A run-time panic (index out of range, nil dereference) is `Outcome.panic`.
* Each value `rand.Intn` returns is an explicit argument, in call order.
* The outside world (credential resolution and the AWS endpoints) is an
  `AWS` record of answers; every call made to it is appended to a call log.
-/

namespace GoProj

/-! ## Go run-time model -/

/-- The result of running Go code that may panic. -/
inductive Outcome (α : Type) where
  | ret (v : α)
  | panic (msg : String)
  deriving DecidableEq, Repr

/-- Sequencing of code that may panic: a panic skips what follows. -/
def Outcome.bind {α β : Type} (x : Outcome α) (f : α → Outcome β) : Outcome β :=
  match x with
  | .ret v => f v
  | .panic msg => .panic msg

/-- The index expression `xs[i]` of Go: a run-time panic when `i` is out of range. -/
def index (xs : List String) (i : Nat) : Outcome String :=
  match xs[i]? with
  | some s => .ret s
  | none => .panic "runtime error: index out of range"

/-- The function `strconv.Itoa` on a non-negative `int`: its decimal rendering. -/
def Itoa (n : Nat) : String := toString n

/-! ## Content generator (`main.go`, lines 52-85) -/

/-- The slice `jokes`. -/
def jokes : List String :=
  [ "What do space cows say? Mooooooooon.",
    "What do you call a cow during an earth quake? A milk shake!",
    "What happens to an illegally parked frog? It gets toad away!" ]

/-- The slice `names`. -/
def names : List String := ["PY", "Matt", "Kia", "Shama", "Aj"]
/-- The slice `occupations`. -/
def occupations : List String := ["devOp Eng", "doctor", "pharmacist", "politician", "actor"]
/-- The slice `devices`. -/
def devices : List String := ["laptop", "tablet", "smartphone", "desktop", "smartwatch"]
/-- The slice `bodyParts`. -/
def bodyParts : List String := ["wrist", "neck", "ankle", "thigh", "shoulder"]
/-- The slice `moods`. -/
def moods : List String := ["happy", "sad", "anxious", "excited", "angry"]
/-- The slice `actions`. -/
def actions : List String :=
  ["playing calming music", "displaying motivational images", "showing a quick joke",
   "vibrating", "sending a life quote"]

/-- The function `getJoke`; `d` is the value `rand.Intn(len(jokes))` returned. -/
def getJoke (d : Nat) : Outcome String :=
  index jokes d

/-- The values the seven calls of `rand.Intn` in `getMadlib` returned, in call order. -/
structure MadlibDraws where
  name : Nat
  age : Nat
  occupation : Nat
  device : Nat
  bodyPart : Nat
  mood : Nat
  action : Nat
  deriving DecidableEq, Repr

/-- The expression `rand.Intn(40) + 18` of `getMadlib`, `d` being the value `rand.Intn(40)` returned. -/
def madlibAge (d : Nat) : Nat := d + 18

/-- The function `getMadlib`. -/
def getMadlib (d : MadlibDraws) : Outcome String :=
  (index names d.name).bind fun name =>
  let age := madlibAge d.age
  (index occupations d.occupation).bind fun occupation =>
  (index devices d.device).bind fun device =>
  (index bodyParts d.bodyPart).bind fun bodyPart =>
  (index moods d.mood).bind fun mood =>
  (index actions d.action).bind fun action =>
  .ret (name ++ " is a " ++ Itoa age ++ "-year-old " ++ occupation ++ " who has been struggling with a lot of job-related stress. He/she decided to try a new application to relieve stress, which runs on a/an " ++ device ++ " to help improve his/her mood. The application senses his/her mood through a device he/she wears on his/her " ++ bodyPart ++ ". When the device senses that he/she is " ++ mood ++ ", it responds by " ++ action ++ ".")

/-- What `rand.Intn` guarantees for the seven calls of `getMadlib`: each value is
non-negative and below the bound the call was given. -/
def MadlibDraws.InRange (d : MadlibDraws) : Prop :=
  d.name < names.length ∧ d.age < 40 ∧ d.occupation < occupations.length ∧
  d.device < devices.length ∧ d.bodyPart < bodyParts.length ∧ d.mood < moods.length ∧
  d.action < actions.length

instance (d : MadlibDraws) : Decidable d.InRange := by
  unfold MadlibDraws.InRange; infer_instance

/-- The fixed sentence of the madlib endpoint as the specification describes it: a
template with seven slots. -/
def madlibTemplate (name age occupation device bodyPart mood action : String) : String :=
  String.join
    [ name, " is a ", age, "-year-old ", occupation,
      " who has been struggling with a lot of job-related stress. He/she decided to try a new application to relieve stress, which runs on a/an ",
      device,
      " to help improve his/her mood. The application senses his/her mood through a device he/she wears on his/her ",
      bodyPart, ". When the device senses that he/she is ", mood, ", it responds by ", action, "." ]

/-- A sample of draws: every word list at index 1, the age draw at its largest value. -/
def sampleDraws : MadlibDraws :=
  { name := 1, age := 39, occupation := 1, device := 1, bodyPart := 1, mood := 1, action := 1 }

/-! ## Server start-up (`main.go`, lines 249-255) -/

/-- The function `os.Getenv`: the value of the variable, the empty string when it is unset. -/
def Getenv (v : Option String) : String := v.getD ""

/-- The address `main` passes to `http.ListenAndServe`; `portEnv` is the `PORT`
variable of the environment, `none` when unset. -/
def listenAddr (portEnv : Option String) : String :=
  let port := Getenv portEnv
  let port := if port = "" then "8080" else port
  ":" ++ port

/-! ## Go slices and pointers -/

/-- A Go slice of `α`: the nil slice, or a non-nil slice with the given elements. -/
inductive GoSlice (α : Type) where
  | nil
  | mk (elems : List α)
  deriving DecidableEq, Repr

/-- The elements a `range` loop over the slice visits, in order; the nil slice has none. -/
def GoSlice.elems {α : Type} : GoSlice α → List α
  | .nil => []
  | .mk xs => xs

/-- The built-in `append(s, x)`: a non-nil slice, also when `s` is nil. -/
def GoSlice.append {α : Type} (s : GoSlice α) (x : α) : GoSlice α :=
  .mk (s.elems ++ [x])

/-- The dereference `*p` of a pointer: a run-time panic on the nil pointer. -/
def deref {α : Type} (p : Option α) : Outcome α :=
  match p with
  | some v => .ret v
  | none => .panic "runtime error: invalid memory address or nil pointer dereference"

/-- The helper `aws.ToString` of the SDK: the pointed-to string, `""` for the nil pointer. -/
def aws.ToString (p : Option String) : String :=
  match p with
  | some s => s
  | none => ""

/-- The helper `aws.String` of the SDK: a (non-nil) pointer to the string. -/
def aws.String (s : String) : Option String := some s

/-! ## The SDK types `main.go` reads and the outside world -/

/-- The type `aws.Config`, reduced to its region. -/
structure Config where
  Region : String
  deriving DecidableEq, Repr

/-- The type `types.Instance`, reduced to the field read. -/
structure Instance where
  InstanceId : Option String
  deriving DecidableEq, Repr

/-- The type `types.Reservation`, reduced to the field read. -/
structure Reservation where
  Instances : GoSlice Instance
  deriving DecidableEq, Repr

/-- The type `ec2.DescribeInstancesOutput`, reduced to the field read. -/
structure DescribeInstancesOutput where
  Reservations : GoSlice Reservation
  deriving DecidableEq, Repr

/-- The type `types.Vpc`, reduced to the field read. -/
structure Vpc where
  VpcId : Option String
  deriving DecidableEq, Repr

/-- The type `ec2.DescribeVpcsOutput`, reduced to the field read. -/
structure DescribeVpcsOutput where
  Vpcs : GoSlice Vpc
  deriving DecidableEq, Repr

/-- The type `eks.ListClustersOutput`, reduced to the field read. -/
structure ListClustersOutput where
  Clusters : GoSlice String
  deriving DecidableEq, Repr

/-- The type `servicequotas.GetServiceQuotaInput`. -/
structure GetServiceQuotaInput where
  QuotaCode : Option String
  ServiceCode : Option String
  deriving DecidableEq, Repr

/-- The type `types.ServiceQuota`, reduced to the field read; `F` stands for `float64`. -/
structure ServiceQuota (F : Type) where
  Value : Option F
  deriving DecidableEq, Repr

/-- The type `servicequotas.GetServiceQuotaOutput`, reduced to the field read. -/
structure GetServiceQuotaOutput (F : Type) where
  Quota : Option (ServiceQuota F)
  deriving DecidableEq, Repr

/-- The outside world: what credential resolution and each AWS endpoint answer.  An
answer `.error msg` is a non-nil `error` with message `msg`. -/
structure AWS (F : Type) where
  LoadDefaultConfig : String → Except String Config
  DescribeInstances : Config → Except String DescribeInstancesOutput
  DescribeVpcs : Config → Except String DescribeVpcsOutput
  ListClusters : Config → Except String ListClustersOutput
  GetServiceQuota : Config → GetServiceQuotaInput → Except String (GetServiceQuotaOutput F)

/-- A call made to the outside world. -/
inductive Call where
  | LoadDefaultConfig (region : String)
  | DescribeInstances
  | DescribeVpcs
  | ListClusters
  | GetServiceQuota (input : GetServiceQuotaInput)
  deriving DecidableEq, Repr

/-- A run of a gateway operation or handler: the calls it made to the outside world, in
order, and what it produced. -/
structure Run (α : Type) where
  calls : List Call
  result : α

/-! ## Cloud inventory gateway (`main.go`, lines 109-188) -/

/-- The function `getEC2Instances`. -/
def getEC2Instances {F : Type} (env : AWS F) : Run (Except String (GoSlice String)) :=
  match env.LoadDefaultConfig "us-east-1" with
  | .error err =>
    ⟨[.LoadDefaultConfig "us-east-1"], .error ("unable to load AWS config: " ++ err)⟩
  | .ok cfg =>
    match env.DescribeInstances cfg with
    | .error err =>
      ⟨[.LoadDefaultConfig "us-east-1", .DescribeInstances],
        .error ("failed to describe EC2 instances: " ++ err)⟩
    | .ok output =>
      let instanceIDs : GoSlice String :=
        output.Reservations.elems.foldl
          (fun instanceIDs reservation =>
            reservation.Instances.elems.foldl
              (fun instanceIDs inst =>
                instanceIDs.append (aws.ToString inst.InstanceId))
              instanceIDs)
          .nil
      ⟨[.LoadDefaultConfig "us-east-1", .DescribeInstances], .ok instanceIDs⟩

/-- The function `getVPCs`. -/
def getVPCs {F : Type} (env : AWS F) : Run (Except String (GoSlice String)) :=
  match env.LoadDefaultConfig "us-east-1" with
  | .error err =>
    ⟨[.LoadDefaultConfig "us-east-1"], .error ("unable to load AWS config: " ++ err)⟩
  | .ok cfg =>
    match env.DescribeVpcs cfg with
    | .error err =>
      ⟨[.LoadDefaultConfig "us-east-1", .DescribeVpcs],
        .error ("failed to describe VPCs: " ++ err)⟩
    | .ok output =>
      let vpcIDs : GoSlice String :=
        output.Vpcs.elems.foldl (fun vpcIDs vpc => vpcIDs.append (aws.ToString vpc.VpcId)) .nil
      ⟨[.LoadDefaultConfig "us-east-1", .DescribeVpcs], .ok vpcIDs⟩

/-- The function `getEKSClusters`. -/
def getEKSClusters {F : Type} (env : AWS F) : Run (Except String (GoSlice String)) :=
  match env.LoadDefaultConfig "us-east-1" with
  | .error err =>
    ⟨[.LoadDefaultConfig "us-east-1"], .error ("unable to load AWS config: " ++ err)⟩
  | .ok cfg =>
    match env.ListClusters cfg with
    | .error err =>
      ⟨[.LoadDefaultConfig "us-east-1", .ListClusters],
        .error ("failed to list EKS clusters: " ++ err)⟩
    | .ok output =>
      ⟨[.LoadDefaultConfig "us-east-1", .ListClusters], .ok output.Clusters⟩

/-- The function `getServiceQuotas`; `Sprintf_f` is `fmt.Sprintf("%f", ·)` on `float64`.
The expression `*output.Quota.Value` reads a field through the pointer `output.Quota`
and then dereferences the pointer `Value`. -/
def getServiceQuotas {F : Type} (Sprintf_f : F → String) (env : AWS F)
    (serviceCode : String) : Run (Outcome (Except String String)) :=
  match env.LoadDefaultConfig "us-east-1" with
  | .error err =>
    ⟨[.LoadDefaultConfig "us-east-1"], .ret (.error ("unable to load AWS config: " ++ err))⟩
  | .ok cfg =>
    let input : GetServiceQuotaInput :=
      { QuotaCode := aws.String "L-1216C47A", ServiceCode := aws.String serviceCode }
    match env.GetServiceQuota cfg input with
    | .error err =>
      ⟨[.LoadDefaultConfig "us-east-1", .GetServiceQuota input],
        .ret (.error ("failed to get service quota: " ++ err))⟩
    | .ok output =>
      ⟨[.LoadDefaultConfig "us-east-1", .GetServiceQuota input],
        (deref output.Quota).bind fun quota =>
        (deref quota.Value).bind fun value =>
        .ret (.ok (Sprintf_f value))⟩

/-! ## HTTP responses -/

/-- A JSON value, as far as the response types of `main.go` need one. -/
inductive JSON where
  | null
  | string (s : String)
  | strings (xs : List String)
  deriving DecidableEq, Repr

/-- How `encoding/json` encodes a `[]string`: the nil slice as `null`, a non-nil slice as
an array. -/
def JSON.ofSlice : GoSlice String → JSON
  | .nil => .null
  | .mk xs => .strings xs

/-- One write to the response body: plain text, or a JSON object written by
`json.NewEncoder(w).Encode` (whose text is followed by a newline). -/
inductive Chunk where
  | text (s : String)
  | json (fields : List (String × JSON))
  deriving DecidableEq, Repr

/-- The state of an `http.ResponseWriter`: the header map, the status code once the
header has been written, and the writes to the body. -/
structure ResponseWriter where
  header : List (String × String)
  status : Option Nat
  body : List Chunk
  deriving DecidableEq, Repr

/-- The writer a handler is given: nothing set, nothing written. -/
def ResponseWriter.fresh : ResponseWriter := { header := [], status := none, body := [] }

/-- The call `w.Header().Set(key, value)`. -/
def ResponseWriter.SetHeader (w : ResponseWriter) (key value : String) : ResponseWriter :=
  { w with header := (key, value) :: w.header.filter (fun kv => kv.1 ≠ key) }

/-- The call `w.WriteHeader(code)`: the first one fixes the status. -/
def ResponseWriter.WriteHeader (w : ResponseWriter) (code : Nat) : ResponseWriter :=
  match w.status with
  | some _ => w
  | none => { w with status := some code }

/-- A write to the body: it first writes the header with status 200 when none was written. -/
def ResponseWriter.Write (w : ResponseWriter) (c : Chunk) : ResponseWriter :=
  let w := w.WriteHeader 200
  { w with body := w.body ++ [c] }

/-- The constant `http.StatusInternalServerError`. -/
def http.StatusInternalServerError : Nat := 500

/-- The function `http.Error`: plain-text content type, the given status, and the
message followed by a newline as body. -/
def http.Error (w : ResponseWriter) (error : String) (code : Nat) : ResponseWriter :=
  let w := w.SetHeader "Content-Type" "text/plain; charset=utf-8"
  let w := w.SetHeader "X-Content-Type-Options" "nosniff"
  let w := w.WriteHeader code
  w.Write (.text (error ++ "\n"))

/-- The request a handler is given; no handler of `main.go` reads it. -/
structure Request where
  Method : String
  Path : String
  Body : String
  deriving DecidableEq, Repr

/-- The type `EC2Response`. -/
structure EC2Response where
  Instances : GoSlice String
/-- The type `VPCResponse`. -/
structure VPCResponse where
  VPCs : GoSlice String
/-- The type `EKSResponse`. -/
structure EKSResponse where
  Clusters : GoSlice String
/-- The type `QuotaResponse`. -/
structure QuotaResponse where
  Service : String
  Quota : String

/-- The JSON object of an `EC2Response`, by its field tag. -/
def EC2Response.toJSON (r : EC2Response) : List (String × JSON) :=
  [("instances", JSON.ofSlice r.Instances)]
/-- The JSON object of a `VPCResponse`, by its field tag. -/
def VPCResponse.toJSON (r : VPCResponse) : List (String × JSON) :=
  [("vpcs", JSON.ofSlice r.VPCs)]
/-- The JSON object of an `EKSResponse`, by its field tag. -/
def EKSResponse.toJSON (r : EKSResponse) : List (String × JSON) :=
  [("clusters", JSON.ofSlice r.Clusters)]
/-- The JSON object of a `QuotaResponse`, by its field tags. -/
def QuotaResponse.toJSON (r : QuotaResponse) : List (String × JSON) :=
  [("service", .string r.Service), ("quota", .string r.Quota)]

/-! ## Handlers (`main.go`, lines 190-233) -/

/-- The function `EC2Handler`. -/
def EC2Handler {F : Type} (env : AWS F) (w : ResponseWriter) (_r : Request) :
    Run ResponseWriter :=
  let run := getEC2Instances env
  match run.result with
  | .error err => ⟨run.calls, http.Error w err http.StatusInternalServerError⟩
  | .ok instances =>
    let response : EC2Response := { Instances := instances }
    let w := w.SetHeader "Content-Type" "application/json"
    ⟨run.calls, w.Write (.json response.toJSON)⟩

/-- The function `VPCHandler`. -/
def VPCHandler {F : Type} (env : AWS F) (w : ResponseWriter) (_r : Request) :
    Run ResponseWriter :=
  let run := getVPCs env
  match run.result with
  | .error err => ⟨run.calls, http.Error w err http.StatusInternalServerError⟩
  | .ok vpcs =>
    let response : VPCResponse := { VPCs := vpcs }
    let w := w.SetHeader "Content-Type" "application/json"
    ⟨run.calls, w.Write (.json response.toJSON)⟩

/-- The function `EKSHandler`. -/
def EKSHandler {F : Type} (env : AWS F) (w : ResponseWriter) (_r : Request) :
    Run ResponseWriter :=
  let run := getEKSClusters env
  match run.result with
  | .error err => ⟨run.calls, http.Error w err http.StatusInternalServerError⟩
  | .ok clusters =>
    let response : EKSResponse := { Clusters := clusters }
    let w := w.SetHeader "Content-Type" "application/json"
    ⟨run.calls, w.Write (.json response.toJSON)⟩

/-- The function `QuotaHandler`.  A panic of `getServiceQuotas` leaves the handler before
anything is written to `w`. -/
def QuotaHandler {F : Type} (Sprintf_f : F → String) (env : AWS F) (w : ResponseWriter)
    (_r : Request) : Run (Outcome ResponseWriter) :=
  let run := getServiceQuotas Sprintf_f env "ec2"
  match run.result with
  | .panic msg => ⟨run.calls, .panic msg⟩
  | .ret (.error err) => ⟨run.calls, .ret (http.Error w err http.StatusInternalServerError)⟩
  | .ret (.ok quota) =>
    let response : QuotaResponse := { Service := "EC2", Quota := quota }
    let w := w.SetHeader "Content-Type" "application/json"
    ⟨run.calls, .ret (w.Write (.json response.toJSON))⟩

/-! ## Statements of the specification, in its own words -/

/-- The identifiers of one reservation, in the order given, a missing identifier as `""`. -/
def reservationIds (r : Reservation) : List String :=
  r.Instances.elems.map fun i => i.InstanceId.getD ""

/-- The concatenation, in order, of the identifiers of the reservations `r_1, ..., r_n`. -/
def flattenedIds : List Reservation → List String
  | [] => []
  | r :: rs => reservationIds r ++ flattenedIds rs

/-- The total number of instances across the reservations. -/
def totalInstances : List Reservation → Nat
  | [] => 0
  | r :: rs => r.Instances.elems.length + totalInstances rs

/-- The value of a response header, if it is set. -/
def ResponseWriter.GetHeader (w : ResponseWriter) (key : String) : Option String :=
  w.header.lookup key

/-- Configuration loading fails with the message `e`. -/
def LoadFails {F : Type} (env : AWS F) (e : String) : Prop :=
  env.LoadDefaultConfig "us-east-1" = .error e

/-- Configuration loads and the provider call `call`, made with it, fails with the
message `e`. -/
def CallFails {F α : Type} (env : AWS F) (call : Config → Except String α) (e : String) :
    Prop :=
  ∃ cfg, env.LoadDefaultConfig "us-east-1" = .ok cfg ∧ call cfg = .error e

/-- The input `QuotaHandler` sends: the hardcoded quota code and the service code `"ec2"`. -/
def quotaInput : GetServiceQuotaInput :=
  { QuotaCode := some "L-1216C47A", ServiceCode := some "ec2" }

/-- The error answer of the specification: status 500 (so not 200), plain-text content
type, and a body that is one non-empty text containing `reason`, with no JSON in it. -/
def IsErrorReply (w : ResponseWriter) (reason : String) : Prop :=
  w.status = some 500 ∧ w.status ≠ some 200 ∧
  w.GetHeader "Content-Type" = some "text/plain; charset=utf-8" ∧
  ∃ text, w.body = [Chunk.text text] ∧ text ≠ "" ∧
    ∃ before after, text = before ++ reason ++ after

/-- The success answer of the specification: status 200, JSON content type, and a body
that is one JSON object with the given fields. -/
def IsJSONReply (w : ResponseWriter) (fields : List (String × JSON)) : Prop :=
  w.status = some 200 ∧ w.GetHeader "Content-Type" = some "application/json" ∧
  w.body = [Chunk.json fields]

/-- The text of a JSON value as `encoding/json` writes it; `quote` is its rendering of a
string as a JSON string literal. -/
def JSON.render (quote : String → String) : JSON → String
  | .null => "null"
  | .string s => quote s
  | .strings xs => "[" ++ ",".intercalate (xs.map quote) ++ "]"

/-- The text of one write to the body; an encoded object is followed by a newline. -/
def Chunk.render (quote : String → String) : Chunk → String
  | .text s => s
  | .json fields =>
    "\x7b" ++ ",".intercalate (fields.map fun kv => "\"" ++ kv.1 ++ "\":" ++ kv.2.render quote)
      ++ "\x7d\n"

/-- The text of the whole body. -/
def ResponseWriter.bodyText (quote : String → String) (w : ResponseWriter) : String :=
  String.join (w.body.map (Chunk.render quote))

/-- The message is one a gateway operation produces for a failed provider call: some
world loads its configuration, the provider call of one of the four operations fails
there, and the operation returns the message as its error. -/
def IsProviderErrorMessage (m : String) : Prop :=
  ∃ (G : Type) (Sprintf' : G → String) (env' : AWS G) (serviceCode : String) (cfg : Config),
    env'.LoadDefaultConfig "us-east-1" = .ok cfg ∧
    (((∃ e', env'.DescribeInstances cfg = .error e') ∧
        (getEC2Instances env').result = .error m) ∨
     ((∃ e', env'.DescribeVpcs cfg = .error e') ∧ (getVPCs env').result = .error m) ∨
     ((∃ e', env'.ListClusters cfg = .error e') ∧
        (getEKSClusters env').result = .error m) ∨
     ((∃ e', env'.GetServiceQuota cfg
          { QuotaCode := some "L-1216C47A", ServiceCode := some serviceCode } = .error e') ∧
        (getServiceQuotas Sprintf' env' serviceCode).result = .ret (.error m)))

/-! ## Sample worlds -/

/-- A rendering of whole numbers in the shape of `%f`, for the sample worlds, whose
quota values are whole numbers. -/
def sampleSprintf (n : Nat) : String := toString n ++ ".000000"

/-- A response with two reservations: two instances (one without identifier), then one. -/
def sampleInstances : DescribeInstancesOutput :=
  { Reservations := .mk
      [ { Instances := .mk [{ InstanceId := some "i-0a1" }, { InstanceId := none }] },
        { Instances := .mk [{ InstanceId := some "i-0c3" }] } ] }

/-- A world in which everything succeeds. -/
def sampleWorld : AWS Nat :=
  { LoadDefaultConfig := fun region => .ok { Region := region }
    DescribeInstances := fun _ => .ok sampleInstances
    DescribeVpcs := fun _ => .ok { Vpcs := .mk [{ VpcId := some "vpc-1" }] }
    ListClusters := fun _ => .ok { Clusters := .mk ["prod"] }
    GetServiceQuota := fun _ _ => .ok { Quota := some { Value := some 5 } } }

/-- A world without credentials: configuration loading fails. -/
def noCredentialsWorld : AWS Nat :=
  { sampleWorld with LoadDefaultConfig := fun _ => .error "no credentials" }

/-- A world in which configuration loads and every provider call fails. -/
def throttledWorld : AWS Nat :=
  { sampleWorld with
    DescribeInstances := fun _ => .error "Throttling"
    DescribeVpcs := fun _ => .error "Throttling"
    ListClusters := fun _ => .error "Throttling"
    GetServiceQuota := fun _ _ => .error "Throttling" }

/-- A world in which every call succeeds and returns nothing: no reservation, no VPC,
no cluster (a non-nil empty slice) and a quota response without quota object. -/
def emptyWorld : AWS Nat :=
  { sampleWorld with
    DescribeInstances := fun _ => .ok { Reservations := .mk [] }
    DescribeVpcs := fun _ => .ok { Vpcs := .mk [] }
    ListClusters := fun _ => .ok { Clusters := .mk [] }
    GetServiceQuota := fun _ _ => .ok { Quota := none } }

/-- A world in which the quota response carries a quota object without a value. -/
def noValueWorld : AWS Nat :=
  { sampleWorld with GetServiceQuota := fun _ _ => .ok { Quota := some { Value := none } } }

/-- Some request. -/
def sampleRequest : Request := { Method := "GET", Path := "/", Body := "" }

/-! ## Theorems: content generator -/

theorem index_lt {xs : List String} {i : Nat} (h : i < xs.length) :
    index xs i = .ret (xs.get ⟨i, h⟩) := by
  simp [index, List.getElem?_eq_getElem h]

theorem getJoke_injOn (d d' : Nat) (h : d < 3) (h' : d' < 3)
    (heq : getJoke d = getJoke d') : d = d' := by
  interval_cases d <;> interval_cases d' <;> first | rfl | (exfalso; revert heq; decide)

/-- C5: for every value `d` that `rand.Intn(len(jokes))` can return (`d < len(jokes)`,
and `len(jokes) = 3`), `getJoke` returns, without a panic, a member of `jokes`; no other
draw in range gives that same string; and every one of the three strings is returned
for some draw in `[0,3)`. -/
theorem getJoke_spec (d : Nat) (h : d < jokes.length) :
    jokes.length = 3 ∧
    (∃ j ∈ jokes, getJoke d = .ret j ∧
      ∀ d', d' < jokes.length → getJoke d' = .ret j → d' = d) ∧
    (∀ j ∈ jokes, ∃ d', d' < 3 ∧ getJoke d' = .ret j) := by
  refine ⟨rfl, ?_, ?_⟩
  · have h3 : d < 3 := h
    refine ⟨jokes.get ⟨d, h⟩, List.get_mem _ _ _, index_lt h, ?_⟩
    intro d' hd' heq
    exact getJoke_injOn d' d hd' h3 (heq.trans (index_lt h).symm)
  · intro j hj
    simp only [jokes, List.mem_cons, List.mem_singleton, List.not_mem_nil, or_false] at hj
    rcases hj with rfl | rfl | rfl
    · exact ⟨0, by decide, rfl⟩
    · exact ⟨1, by decide, rfl⟩
    · exact ⟨2, by decide, rfl⟩

theorem getJoke_spec_witness :
    (1 < jokes.length) ∧
    (jokes.length = 3 ∧
    (∃ j ∈ jokes, getJoke 1 = .ret j ∧
      ∀ d', d' < jokes.length → getJoke d' = .ret j → d' = 1) ∧
    (∀ j ∈ jokes, ∃ d', d' < 3 ∧ getJoke d' = .ret j)) :=
  ⟨by decide, getJoke_spec 1 (by decide)⟩

theorem madlibTemplate_eq (name age occupation device bodyPart mood action : String) :
    madlibTemplate name age occupation device bodyPart mood action =
      name ++ " is a " ++ age ++ "-year-old " ++ occupation ++ " who has been struggling with a lot of job-related stress. He/she decided to try a new application to relieve stress, which runs on a/an " ++ device ++ " to help improve his/her mood. The application senses his/her mood through a device he/she wears on his/her " ++ bodyPart ++ ". When the device senses that he/she is " ++ mood ++ ", it responds by " ++ action ++ "." := by
  simp [madlibTemplate, String.join]

theorem getMadlib_eq (d : MadlibDraws) (h : d.InRange) :
    getMadlib d = .ret (madlibTemplate (names.get ⟨d.name, h.1⟩) (Itoa (madlibAge d.age))
      (occupations.get ⟨d.occupation, h.2.2.1⟩) (devices.get ⟨d.device, h.2.2.2.1⟩)
      (bodyParts.get ⟨d.bodyPart, h.2.2.2.2.1⟩) (moods.get ⟨d.mood, h.2.2.2.2.2.1⟩)
      (actions.get ⟨d.action, h.2.2.2.2.2.2⟩)) := by
  obtain ⟨h1, _, h3, h4, h5, h6, h7⟩ := h
  rw [madlibTemplate_eq]
  simp only [getMadlib, index_lt h1, index_lt h3, index_lt h4, index_lt h5, index_lt h6,
    index_lt h7, Outcome.bind]

/-- C6: for every sequence of values the seven `rand.Intn` calls can return (each below
its bound), `getMadlib` returns, without a panic, the fixed template whose seven slots
hold, in template order, `names[d.name]`, the decimal rendering of the age
`d.age + 18`, `occupations[d.occupation]`, `devices[d.device]`,
`bodyParts[d.bodyPart]`, `moods[d.mood]` and `actions[d.action]`, each a member of its
own list; the thirty words of the six lists are pairwise different, so a slot's word
belongs to no other list. -/
theorem getMadlib_spec (d : MadlibDraws) (h : d.InRange) :
    (∃ name ∈ names, ∃ occupation ∈ occupations, ∃ device ∈ devices,
      ∃ bodyPart ∈ bodyParts, ∃ mood ∈ moods, ∃ action ∈ actions,
      names[d.name]? = some name ∧ occupations[d.occupation]? = some occupation ∧
      devices[d.device]? = some device ∧ bodyParts[d.bodyPart]? = some bodyPart ∧
      moods[d.mood]? = some mood ∧ actions[d.action]? = some action ∧
      getMadlib d = .ret (madlibTemplate name (toString (d.age + 18)) occupation device
        bodyPart mood action)) ∧
    (names ++ occupations ++ devices ++ bodyParts ++ moods ++ actions).Nodup := by
  refine ⟨?_, by decide⟩
  have h' := h
  obtain ⟨h1, _, h3, h4, h5, h6, h7⟩ := h'
  exact ⟨_, List.get_mem _ _ h1, _, List.get_mem _ _ h3, _, List.get_mem _ _ h4,
    _, List.get_mem _ _ h5, _, List.get_mem _ _ h6, _, List.get_mem _ _ h7,
    List.getElem?_eq_getElem h1, List.getElem?_eq_getElem h3, List.getElem?_eq_getElem h4,
    List.getElem?_eq_getElem h5, List.getElem?_eq_getElem h6, List.getElem?_eq_getElem h7,
    getMadlib_eq d h⟩

theorem getMadlib_spec_witness :
    sampleDraws.InRange ∧
    ((∃ name ∈ names, ∃ occupation ∈ occupations, ∃ device ∈ devices,
      ∃ bodyPart ∈ bodyParts, ∃ mood ∈ moods, ∃ action ∈ actions,
      names[sampleDraws.name]? = some name ∧
      occupations[sampleDraws.occupation]? = some occupation ∧
      devices[sampleDraws.device]? = some device ∧
      bodyParts[sampleDraws.bodyPart]? = some bodyPart ∧
      moods[sampleDraws.mood]? = some mood ∧ actions[sampleDraws.action]? = some action ∧
      getMadlib sampleDraws = .ret (madlibTemplate name (toString (sampleDraws.age + 18))
        occupation device bodyPart mood action)) ∧
    (names ++ occupations ++ devices ++ bodyParts ++ moods ++ actions).Nodup) :=
  ⟨by decide, getMadlib_spec sampleDraws (by decide)⟩

/-- C7: for every value `d` that `rand.Intn(40)` can return (`d < 40`) the age
`rand.Intn(40) + 18` lies in `[18, 57]`; no other draw below 40 gives the same age; every
age of `[18, 57]` is the age of some draw below 40 (so 18 and 57 are attained and the
map from draws to ages is a bijection onto `{18, ..., 57}`); and that age is the one
`getMadlib` renders in its second slot. -/
theorem madlibAge_spec (d : Nat) (h : d < 40) :
    (18 ≤ madlibAge d ∧ madlibAge d ≤ 57) ∧
    (∀ d', d' < 40 → madlibAge d' = madlibAge d → d' = d) ∧
    (∀ a, 18 ≤ a → a ≤ 57 → ∃ d', d' < 40 ∧ madlibAge d' = a) ∧
    (madlibAge 0 = 18 ∧ madlibAge 39 = 57) ∧
    (∀ m : MadlibDraws, m.InRange → m.age = d →
      ∃ name occupation device bodyPart mood action,
        getMadlib m = .ret (madlibTemplate name (toString (madlibAge d)) occupation device
          bodyPart mood action)) := by
  refine ⟨?_, ?_, ?_, ⟨rfl, rfl⟩, ?_⟩
  · unfold madlibAge; omega
  · intro d' _ heq; unfold madlibAge at heq; omega
  · intro a h1 h2
    exact ⟨a - 18, by omega, by unfold madlibAge; omega⟩
  · intro m hm hage
    subst hage
    exact ⟨_, _, _, _, _, _, getMadlib_eq m hm⟩

theorem madlibAge_spec_witness :
    (39 < 40) ∧
    ((18 ≤ madlibAge 39 ∧ madlibAge 39 ≤ 57) ∧
    (∀ d', d' < 40 → madlibAge d' = madlibAge 39 → d' = 39) ∧
    (∀ a, 18 ≤ a → a ≤ 57 → ∃ d', d' < 40 ∧ madlibAge d' = a) ∧
    (madlibAge 0 = 18 ∧ madlibAge 39 = 57) ∧
    (∀ m : MadlibDraws, m.InRange → m.age = 39 →
      ∃ name occupation device bodyPart mood action,
        getMadlib m = .ret (madlibTemplate name (toString (madlibAge 39)) occupation device
          bodyPart mood action))) :=
  ⟨by decide, madlibAge_spec 39 (by decide)⟩

/-! ## Theorems: server start-up -/

/-- C10: for every value of `PORT`: when it is set to a non-empty string `p` (so in
particular to a valid numeric string such as `"9090"`) the listen address of `main` is
`":"` followed by `p`; when it is unset or empty the address is `":8080"`. -/
theorem listenAddr_spec (p : String) (h : p ≠ "") :
    listenAddr (some p) = ":" ++ p ∧
    listenAddr none = ":8080" ∧
    listenAddr (some "") = ":8080" := by
  refine ⟨?_, rfl, rfl⟩
  simp [listenAddr, Getenv, h]

theorem listenAddr_spec_witness :
    ("9090" ≠ "") ∧
    (listenAddr (some "9090") = ":" ++ "9090" ∧
    listenAddr none = ":8080" ∧
    listenAddr (some "") = ":8080") :=
  ⟨by decide, listenAddr_spec "9090" (by decide)⟩

/-! ## Theorems: cloud inventory gateway -/

theorem aws_ToString_eq (p : Option String) : aws.ToString p = p.getD "" := by
  cases p <;> rfl

theorem nil_elems {α : Type} : (GoSlice.nil : GoSlice α).elems = [] := rfl

theorem append_elems {α : Type} (s : GoSlice α) (x : α) :
    (s.append x).elems = s.elems ++ [x] := rfl

theorem foldl_append_elems {α : Type} (f : α → String) (xs : List α) (acc : GoSlice String) :
    (xs.foldl (fun ids x => ids.append (f x)) acc).elems = acc.elems ++ xs.map f := by
  induction xs generalizing acc with
  | nil => simp
  | cons x xs ih =>
    rw [List.foldl_cons, ih, append_elems]
    simp

theorem foldl_reservations_elems (rs : List Reservation) (acc : GoSlice String) :
    (rs.foldl
      (fun instanceIDs reservation =>
        reservation.Instances.elems.foldl
          (fun instanceIDs inst => instanceIDs.append (aws.ToString inst.InstanceId))
          instanceIDs)
      acc).elems = acc.elems ++ flattenedIds rs := by
  induction rs generalizing acc with
  | nil => simp [flattenedIds]
  | cons r rs ih =>
    rw [List.foldl_cons, ih, foldl_append_elems]
    simp [flattenedIds, reservationIds, aws_ToString_eq]

theorem flattenedIds_length (rs : List Reservation) :
    (flattenedIds rs).length = totalInstances rs := by
  induction rs with
  | nil => rfl
  | cons r rs ih => simp [flattenedIds, totalInstances, reservationIds, ih]

/-- C4: whenever configuration loads and `DescribeInstances` succeeds with reservations
`r_1, ..., r_n`, `getEC2Instances` returns, with no error, a slice whose elements are
exactly the identifiers of `r_1`, then of `r_2`, ..., then of `r_n`, each reservation's
instances in their given order and a missing identifier as `""`; its length is the
total number of instances across the reservations. -/
theorem getEC2Instances_flatten {F : Type} (env : AWS F) (cfg : Config)
    (output : DescribeInstancesOutput)
    (hcfg : env.LoadDefaultConfig "us-east-1" = .ok cfg)
    (hout : env.DescribeInstances cfg = .ok output) :
    ∃ ids : GoSlice String,
      (getEC2Instances env).result = .ok ids ∧
      ids.elems = flattenedIds output.Reservations.elems ∧
      ids.elems.length = totalInstances output.Reservations.elems := by
  have hflat := foldl_reservations_elems output.Reservations.elems .nil
  rw [nil_elems, List.nil_append] at hflat
  refine ⟨_, by simp only [getEC2Instances, hcfg, hout], hflat, ?_⟩
  rw [hflat, flattenedIds_length]

theorem getEC2Instances_flatten_witness :
    sampleWorld.LoadDefaultConfig "us-east-1" = .ok { Region := "us-east-1" } ∧
    sampleWorld.DescribeInstances { Region := "us-east-1" } = .ok sampleInstances ∧
    ∃ ids : GoSlice String,
      (getEC2Instances sampleWorld).result = .ok ids ∧
      ids.elems = flattenedIds sampleInstances.Reservations.elems ∧
      ids.elems.length = totalInstances sampleInstances.Reservations.elems :=
  ⟨rfl, rfl, getEC2Instances_flatten sampleWorld { Region := "us-east-1" } sampleInstances
    rfl rfl⟩

/-! ## Theorems: handlers -/

theorem string_append_ne_empty (a b : String) (hb : b ≠ "") : a ++ b ≠ "" := by
  intro h
  have hlen := congrArg String.length h
  have hb0 : b.length ≠ 0 := fun h0 => hb (String.ext (by
    have := List.length_eq_zero.mp h0
    simpa using this))
  simp at hlen
  omega

theorem isErrorReply_Error (before e : String) :
    IsErrorReply (http.Error .fresh (before ++ e) http.StatusInternalServerError) e := by
  refine ⟨rfl, ?_, ?_, before ++ e ++ "\n", rfl, ?_, before, "\n", rfl⟩
  · show some 500 ≠ some 200
    decide
  · show List.lookup "Content-Type" [("X-Content-Type-Options", "nosniff"),
      ("Content-Type", "text/plain; charset=utf-8")] = some "text/plain; charset=utf-8"
    decide
  · exact string_append_ne_empty _ _ (by decide)

theorem EC2Handler_error {F : Type} (env : AWS F) (r : Request) (e : String)
    (h : LoadFails env e ∨ CallFails env env.DescribeInstances e) :
    IsErrorReply (EC2Handler env .fresh r).result e := by
  rcases h with h | ⟨cfg, hcfg, hcall⟩
  · simp only [EC2Handler, getEC2Instances, show env.LoadDefaultConfig "us-east-1" = _ from h]
    exact isErrorReply_Error _ e
  · simp only [EC2Handler, getEC2Instances, hcfg, hcall]
    exact isErrorReply_Error _ e

theorem VPCHandler_error {F : Type} (env : AWS F) (r : Request) (e : String)
    (h : LoadFails env e ∨ CallFails env env.DescribeVpcs e) :
    IsErrorReply (VPCHandler env .fresh r).result e := by
  rcases h with h | ⟨cfg, hcfg, hcall⟩
  · simp only [VPCHandler, getVPCs, show env.LoadDefaultConfig "us-east-1" = _ from h]
    exact isErrorReply_Error _ e
  · simp only [VPCHandler, getVPCs, hcfg, hcall]
    exact isErrorReply_Error _ e

theorem EKSHandler_error {F : Type} (env : AWS F) (r : Request) (e : String)
    (h : LoadFails env e ∨ CallFails env env.ListClusters e) :
    IsErrorReply (EKSHandler env .fresh r).result e := by
  rcases h with h | ⟨cfg, hcfg, hcall⟩
  · simp only [EKSHandler, getEKSClusters, show env.LoadDefaultConfig "us-east-1" = _ from h]
    exact isErrorReply_Error _ e
  · simp only [EKSHandler, getEKSClusters, hcfg, hcall]
    exact isErrorReply_Error _ e

theorem QuotaHandler_error {F : Type} (Sprintf_f : F → String) (env : AWS F) (r : Request)
    (e : String)
    (h : LoadFails env e ∨ CallFails env (fun cfg => env.GetServiceQuota cfg quotaInput) e) :
    ∃ w, (QuotaHandler Sprintf_f env .fresh r).result = .ret w ∧ IsErrorReply w e := by
  rcases h with h | ⟨cfg, hcfg, hcall⟩
  · simp only [QuotaHandler, getServiceQuotas,
      show env.LoadDefaultConfig "us-east-1" = _ from h]
    exact ⟨_, rfl, isErrorReply_Error _ e⟩
  · have hcall' : env.GetServiceQuota cfg
        { QuotaCode := aws.String "L-1216C47A", ServiceCode := aws.String "ec2" } =
        .error e := hcall
    simp only [QuotaHandler, getServiceQuotas, hcfg, hcall']
    exact ⟨_, rfl, isErrorReply_Error _ e⟩

/-- C1: for each of `EC2Handler`, `VPCHandler`, `EKSHandler` and `QuotaHandler`, in every
world in which configuration loading or the handler's provider call returns an error
with message `e`, the handler answers with status 500 (never 200), plain-text content
type and a body that is a single non-empty text containing `e`; no JSON is written. -/
theorem handlers_error_reply {F : Type} (Sprintf_f : F → String) (env : AWS F)
    (r : Request) (e : String) :
    ((LoadFails env e ∨ CallFails env env.DescribeInstances e) →
      IsErrorReply (EC2Handler env .fresh r).result e) ∧
    ((LoadFails env e ∨ CallFails env env.DescribeVpcs e) →
      IsErrorReply (VPCHandler env .fresh r).result e) ∧
    ((LoadFails env e ∨ CallFails env env.ListClusters e) →
      IsErrorReply (EKSHandler env .fresh r).result e) ∧
    ((LoadFails env e ∨ CallFails env (fun cfg => env.GetServiceQuota cfg quotaInput) e) →
      ∃ w, (QuotaHandler Sprintf_f env .fresh r).result = .ret w ∧ IsErrorReply w e) :=
  ⟨EC2Handler_error env r e, VPCHandler_error env r e, EKSHandler_error env r e,
    QuotaHandler_error Sprintf_f env r e⟩

theorem handlers_error_reply_witness :
    CallFails throttledWorld throttledWorld.DescribeInstances "Throttling" ∧
    CallFails throttledWorld throttledWorld.DescribeVpcs "Throttling" ∧
    CallFails throttledWorld throttledWorld.ListClusters "Throttling" ∧
    CallFails throttledWorld (fun cfg => throttledWorld.GetServiceQuota cfg quotaInput)
      "Throttling" ∧
    IsErrorReply (EC2Handler throttledWorld .fresh sampleRequest).result "Throttling" ∧
    IsErrorReply (VPCHandler throttledWorld .fresh sampleRequest).result "Throttling" ∧
    IsErrorReply (EKSHandler throttledWorld .fresh sampleRequest).result "Throttling" ∧
    (∃ w, (QuotaHandler sampleSprintf throttledWorld .fresh sampleRequest).result = .ret w ∧
      IsErrorReply w "Throttling") :=
  have h := handlers_error_reply sampleSprintf throttledWorld sampleRequest "Throttling"
  have h1 : CallFails throttledWorld throttledWorld.DescribeInstances "Throttling" :=
    ⟨{ Region := "us-east-1" }, rfl, rfl⟩
  have h2 : CallFails throttledWorld throttledWorld.DescribeVpcs "Throttling" :=
    ⟨{ Region := "us-east-1" }, rfl, rfl⟩
  have h3 : CallFails throttledWorld throttledWorld.ListClusters "Throttling" :=
    ⟨{ Region := "us-east-1" }, rfl, rfl⟩
  have h4 : CallFails throttledWorld
      (fun cfg => throttledWorld.GetServiceQuota cfg quotaInput) "Throttling" :=
    ⟨{ Region := "us-east-1" }, rfl, rfl⟩
  ⟨h1, h2, h3, h4, h.1 (Or.inr h1), h.2.1 (Or.inr h2), h.2.2.1 (Or.inr h3),
    h.2.2.2 (Or.inr h4)⟩

theorem foldl_reservations_of_total_zero (rs : List Reservation) (acc : GoSlice String)
    (h : totalInstances rs = 0) :
    rs.foldl
      (fun instanceIDs reservation =>
        reservation.Instances.elems.foldl
          (fun instanceIDs inst => instanceIDs.append (aws.ToString inst.InstanceId))
          instanceIDs)
      acc = acc := by
  induction rs generalizing acc with
  | nil => rfl
  | cons r rs ih =>
    simp only [totalInstances, Nat.add_eq_zero, List.length_eq_zero] at h
    rw [List.foldl_cons, h.1, List.foldl_nil, ih acc h.2]

theorem isJSONReply_Write (fields : List (String × JSON)) :
    IsJSONReply
      ((ResponseWriter.fresh.SetHeader "Content-Type" "application/json").Write (.json fields))
      fields := by
  refine ⟨rfl, ?_, rfl⟩
  show List.lookup "Content-Type" [("Content-Type", "application/json")] = _
  decide

/-- C2, as the code has it: when configuration loads and the provider call succeeds with
zero items, each listing handler answers with status 200, JSON content type and a JSON
object in which the sequence field is present, never an error.  For `/ec2s` and `/vpcs`
the value of the field is `null`: the identifier slice is nil until the first `append`.
For `/eks` it is the provider's `Clusters` slice as encoded: `[]` when that slice is
empty and non-nil, `null` when it is nil. -/
theorem listing_zero_items {F : Type} (env : AWS F) (r : Request) (cfg : Config)
    (hcfg : env.LoadDefaultConfig "us-east-1" = .ok cfg) :
    (∀ output, env.DescribeInstances cfg = .ok output →
      totalInstances output.Reservations.elems = 0 →
      IsJSONReply (EC2Handler env .fresh r).result [("instances", .null)]) ∧
    (∀ output, env.DescribeVpcs cfg = .ok output → output.Vpcs.elems = [] →
      IsJSONReply (VPCHandler env .fresh r).result [("vpcs", .null)]) ∧
    (env.ListClusters cfg = .ok { Clusters := .mk [] } →
      IsJSONReply (EKSHandler env .fresh r).result [("clusters", .strings [])]) ∧
    (env.ListClusters cfg = .ok { Clusters := .nil } →
      IsJSONReply (EKSHandler env .fresh r).result [("clusters", .null)]) := by
  refine ⟨?_, ?_, ?_, ?_⟩
  · intro output hout hzero
    simp only [EC2Handler, getEC2Instances, hcfg, hout,
      foldl_reservations_of_total_zero _ _ hzero]
    exact isJSONReply_Write _
  · intro output hout hzero
    simp only [VPCHandler, getVPCs, hcfg, hout, hzero, List.foldl_nil]
    exact isJSONReply_Write _
  · intro hout
    simp only [EKSHandler, getEKSClusters, hcfg, hout]
    exact isJSONReply_Write _
  · intro hout
    simp only [EKSHandler, getEKSClusters, hcfg, hout]
    exact isJSONReply_Write _

theorem listing_zero_items_witness :
    emptyWorld.LoadDefaultConfig "us-east-1" = .ok { Region := "us-east-1" } ∧
    IsJSONReply (EC2Handler emptyWorld .fresh sampleRequest).result [("instances", .null)] ∧
    IsJSONReply (VPCHandler emptyWorld .fresh sampleRequest).result [("vpcs", .null)] ∧
    IsJSONReply (EKSHandler emptyWorld .fresh sampleRequest).result
      [("clusters", .strings [])] :=
  have h := listing_zero_items emptyWorld sampleRequest { Region := "us-east-1" } rfl
  ⟨rfl, h.1 { Reservations := .mk [] } rfl rfl, h.2.1 { Vpcs := .mk [] } rfl rfl,
    h.2.2.1 rfl⟩

/-- C2 as stated fails: in a world where configuration loads and `DescribeInstances`
succeeds with no reservation, the body `EC2Handler` writes is the object whose
`instances` field is `null`, on the wire `{"instances":null}`, not the empty sequence. -/
theorem ec2_zero_items_null :
    emptyWorld.LoadDefaultConfig "us-east-1" = .ok { Region := "us-east-1" } ∧
    emptyWorld.DescribeInstances { Region := "us-east-1" } = .ok { Reservations := .mk [] } ∧
    (EC2Handler emptyWorld .fresh sampleRequest).result.status = some 200 ∧
    (EC2Handler emptyWorld .fresh sampleRequest).result.body =
      [Chunk.json [("instances", JSON.null)]] ∧
    (∀ quote, (EC2Handler emptyWorld .fresh sampleRequest).result.bodyText quote =
      "\x7b\"instances\":null\x7d\n") ∧
    ¬ IsJSONReply (EC2Handler emptyWorld .fresh sampleRequest).result
      [("instances", JSON.strings [])] := by
  refine ⟨rfl, rfl, rfl, rfl, fun _ => rfl, ?_⟩
  intro h
  have hbody := h.2.2
  revert hbody
  decide

/-! ## Theorems: quota lookup -/

/-- C3, at the failing inputs: when the provider call succeeds with a response that has
no quota object, or a quota object without value, `getServiceQuotas` returns neither a
string nor an error: it panics on the nil pointer, after both calls were made, and
`QuotaHandler` is left by that panic with nothing written. -/
theorem getServiceQuotas_nil_panics :
    emptyWorld.GetServiceQuota { Region := "us-east-1" } quotaInput = .ok { Quota := none } ∧
    (getServiceQuotas sampleSprintf emptyWorld "ec2").result =
      .panic "runtime error: invalid memory address or nil pointer dereference" ∧
    noValueWorld.GetServiceQuota { Region := "us-east-1" } quotaInput =
      .ok { Quota := some { Value := none } } ∧
    (getServiceQuotas sampleSprintf noValueWorld "ec2").result =
      .panic "runtime error: invalid memory address or nil pointer dereference" ∧
    (∀ v : Except String String,
      (getServiceQuotas sampleSprintf emptyWorld "ec2").result ≠ .ret v) ∧
    (QuotaHandler sampleSprintf emptyWorld .fresh sampleRequest).result =
      .panic "runtime error: invalid memory address or nil pointer dereference" := by
  refine ⟨rfl, rfl, rfl, rfl, ?_, rfl⟩
  intro v h
  have h' : (Outcome.panic "runtime error: invalid memory address or nil pointer dereference" :
      Outcome (Except String String)) = .ret v := h
  cases h'

/-- Every run of `getServiceQuotas` is of one of four kinds: the configuration error,
the provider error, a rendered quota value, or the nil-dereference panic, the last one
exactly when the successful response lacks the quota object or its value. -/
theorem getServiceQuotas_outcomes {F : Type} (Sprintf_f : F → String) (env : AWS F)
    (serviceCode : String) :
    (∃ e, env.LoadDefaultConfig "us-east-1" = .error e ∧
      (getServiceQuotas Sprintf_f env serviceCode).result =
        .ret (.error ("unable to load AWS config: " ++ e))) ∨
    (∃ cfg e, env.LoadDefaultConfig "us-east-1" = .ok cfg ∧
      env.GetServiceQuota cfg
        { QuotaCode := some "L-1216C47A", ServiceCode := some serviceCode } = .error e ∧
      (getServiceQuotas Sprintf_f env serviceCode).result =
        .ret (.error ("failed to get service quota: " ++ e))) ∨
    (∃ cfg v, env.LoadDefaultConfig "us-east-1" = .ok cfg ∧
      env.GetServiceQuota cfg
        { QuotaCode := some "L-1216C47A", ServiceCode := some serviceCode } =
        .ok { Quota := some { Value := some v } } ∧
      (getServiceQuotas Sprintf_f env serviceCode).result = .ret (.ok (Sprintf_f v))) ∨
    (∃ cfg output, env.LoadDefaultConfig "us-east-1" = .ok cfg ∧
      env.GetServiceQuota cfg
        { QuotaCode := some "L-1216C47A", ServiceCode := some serviceCode } = .ok output ∧
      (output.Quota = none ∨ output.Quota = some { Value := none }) ∧
      (getServiceQuotas Sprintf_f env serviceCode).result =
        .panic "runtime error: invalid memory address or nil pointer dereference") := by
  unfold getServiceQuotas
  cases hload : env.LoadDefaultConfig "us-east-1" with
  | error e => exact Or.inl ⟨e, rfl, rfl⟩
  | ok cfg =>
    simp only [aws.String]
    cases hcall : env.GetServiceQuota cfg
      { QuotaCode := some "L-1216C47A", ServiceCode := some serviceCode } with
    | error e => exact Or.inr (Or.inl ⟨cfg, e, rfl, hcall, rfl⟩)
    | ok output =>
      rcases output with ⟨_ | ⟨_ | v⟩⟩
      · exact Or.inr (Or.inr (Or.inr ⟨cfg, _, rfl, hcall, Or.inl rfl, rfl⟩))
      · exact Or.inr (Or.inr (Or.inr ⟨cfg, _, rfl, hcall, Or.inr rfl, rfl⟩))
      · exact Or.inr (Or.inr (Or.inl ⟨cfg, v, rfl, hcall, rfl⟩))

theorem getServiceQuotas_calls {F : Type} (Sprintf_f : F → String) (env : AWS F)
    (serviceCode : String) :
    (getServiceQuotas Sprintf_f env serviceCode).calls =
      match env.LoadDefaultConfig "us-east-1" with
      | .error _ => [.LoadDefaultConfig "us-east-1"]
      | .ok _ => [.LoadDefaultConfig "us-east-1",
          .GetServiceQuota { QuotaCode := some "L-1216C47A", ServiceCode := some serviceCode }] := by
  unfold getServiceQuotas
  cases env.LoadDefaultConfig "us-east-1" with
  | error e => rfl
  | ok cfg =>
    simp only [aws.String]
    cases env.GetServiceQuota cfg
      { QuotaCode := some "L-1216C47A", ServiceCode := some serviceCode } <;> rfl

theorem QuotaHandler_calls {F : Type} (Sprintf_f : F → String) (env : AWS F)
    (w : ResponseWriter) (r : Request) :
    (QuotaHandler Sprintf_f env w r).calls = (getServiceQuotas Sprintf_f env "ec2").calls := by
  unfold QuotaHandler
  generalize getServiceQuotas Sprintf_f env "ec2" = run
  rcases run with ⟨calls, (_ | _) | _⟩ <;> rfl

/-- C8: for every request and every world, the run of `QuotaHandler` does not depend on
the request; every call it makes is either the configuration loading or the lookup
`GetServiceQuota` with quota code `"L-1216C47A"` and service code `"ec2"`, and that
lookup is made exactly once whenever configuration loads; and whenever the body it
writes holds a JSON object, the status is 200 and the object is exactly
`service = "EC2"`, `quota = q` with `q` the string `getServiceQuotas` returned. -/
theorem QuotaHandler_fixed_query {F : Type} (Sprintf_f : F → String) (env : AWS F)
    (r r' : Request) :
    (QuotaHandler Sprintf_f env .fresh r).calls = (QuotaHandler Sprintf_f env .fresh r').calls ∧
    (QuotaHandler Sprintf_f env .fresh r).result =
      (QuotaHandler Sprintf_f env .fresh r').result ∧
    (∀ c ∈ (QuotaHandler Sprintf_f env .fresh r).calls,
      c = .LoadDefaultConfig "us-east-1" ∨
      c = .GetServiceQuota { QuotaCode := some "L-1216C47A", ServiceCode := some "ec2" }) ∧
    (∀ cfg, env.LoadDefaultConfig "us-east-1" = .ok cfg →
      (QuotaHandler Sprintf_f env .fresh r).calls =
        [.LoadDefaultConfig "us-east-1",
         .GetServiceQuota { QuotaCode := some "L-1216C47A", ServiceCode := some "ec2" }]) ∧
    (∀ w fields, (QuotaHandler Sprintf_f env .fresh r).result = .ret w →
      Chunk.json fields ∈ w.body →
      ∃ q, (getServiceQuotas Sprintf_f env "ec2").result = .ret (.ok q) ∧
        IsJSONReply w [("service", .string "EC2"), ("quota", .string q)] ∧
        fields = [("service", .string "EC2"), ("quota", .string q)]) := by
  refine ⟨rfl, rfl, ?_, ?_, ?_⟩
  · intro c hc
    rw [QuotaHandler_calls, getServiceQuotas_calls] at hc
    cases hload : env.LoadDefaultConfig "us-east-1" with
    | error e => rw [hload] at hc; simp at hc; exact Or.inl hc
    | ok cfg => rw [hload] at hc; simp at hc; exact hc
  · intro cfg hcfg
    rw [QuotaHandler_calls, getServiceQuotas_calls, hcfg]
  · intro w fields hres hmem
    unfold QuotaHandler at hres
    generalize getServiceQuotas Sprintf_f env "ec2" = run at hres
    rcases run with ⟨calls, (err | q) | msg⟩
    · simp only [Outcome.ret.injEq] at hres
      subst hres
      simp [http.Error, ResponseWriter.Write, ResponseWriter.WriteHeader,
        ResponseWriter.SetHeader, ResponseWriter.fresh] at hmem
    · simp only [Outcome.ret.injEq] at hres
      subst hres
      refine ⟨q, rfl, isJSONReply_Write _, ?_⟩
      simpa [ResponseWriter.Write, ResponseWriter.WriteHeader, ResponseWriter.SetHeader,
        ResponseWriter.fresh, QuotaResponse.toJSON] using hmem
    · cases hres

theorem QuotaHandler_fixed_query_witness :
    sampleWorld.LoadDefaultConfig "us-east-1" = .ok { Region := "us-east-1" } ∧
    (QuotaHandler sampleSprintf sampleWorld .fresh sampleRequest).calls =
      [.LoadDefaultConfig "us-east-1",
       .GetServiceQuota { QuotaCode := some "L-1216C47A", ServiceCode := some "ec2" }] ∧
    (∃ q, (getServiceQuotas sampleSprintf sampleWorld "ec2").result = .ret (.ok q) ∧
      IsJSONReply
        ((ResponseWriter.fresh.SetHeader "Content-Type" "application/json").Write
          (.json [("service", .string "EC2"), ("quota", .string "5.000000")]))
        [("service", .string "EC2"), ("quota", .string q)] ∧
      [("service", JSON.string "EC2"), ("quota", JSON.string "5.000000")] =
        [("service", .string "EC2"), ("quota", .string q)]) :=
  have h := QuotaHandler_fixed_query sampleSprintf sampleWorld sampleRequest sampleRequest
  ⟨rfl, h.2.2.2.1 { Region := "us-east-1" } rfl,
    h.2.2.2.2 _ [("service", .string "EC2"), ("quota", .string "5.000000")] rfl
      (by decide)⟩

/-! ## Theorems: the two error kinds -/

theorem head_of_providerError {m : String} (h : IsProviderErrorMessage m) :
    m.data.head? = some 'f' := by
  obtain ⟨G, Sprintf', env', serviceCode, cfg, hcfg, h⟩ := h
  rcases h with ⟨⟨e', hcall⟩, hres⟩ | ⟨⟨e', hcall⟩, hres⟩ | ⟨⟨e', hcall⟩, hres⟩ |
    ⟨⟨e', hcall⟩, hres⟩
  · simp only [getEC2Instances, hcfg, hcall, Except.error.injEq] at hres
    subst hres
    simp [String.data_append]
  · simp only [getVPCs, hcfg, hcall, Except.error.injEq] at hres
    subst hres
    simp [String.data_append]
  · simp only [getEKSClusters, hcfg, hcall, Except.error.injEq] at hres
    subst hres
    simp [String.data_append]
  · simp only [getServiceQuotas, hcfg, aws.String, hcall, Outcome.ret.injEq,
      Except.error.injEq] at hres
    subst hres
    simp [String.data_append]

theorem configError_ne_providerError (e m : String) (h : IsProviderErrorMessage m) :
    "unable to load AWS config: " ++ e ≠ m := by
  intro heq
  have hm := head_of_providerError h
  rw [← heq] at hm
  simp [String.data_append] at hm

/-- C9: in every world in which configuration loading fails with message `e`, each of
`getEC2Instances`, `getVPCs`, `getEKSClusters` and `getServiceQuotas` returns the error
`"unable to load AWS config: "` followed by `e`, having made the configuration call and
no provider call; and that message differs from every message any of the four
operations returns, in any world, for a failed provider call. -/
theorem config_failure_distinct {F : Type} (Sprintf_f : F → String) (env : AWS F)
    (serviceCode e : String) (h : LoadFails env e) :
    ((getEC2Instances env).result = .error ("unable to load AWS config: " ++ e) ∧
      (getEC2Instances env).calls = [.LoadDefaultConfig "us-east-1"]) ∧
    ((getVPCs env).result = .error ("unable to load AWS config: " ++ e) ∧
      (getVPCs env).calls = [.LoadDefaultConfig "us-east-1"]) ∧
    ((getEKSClusters env).result = .error ("unable to load AWS config: " ++ e) ∧
      (getEKSClusters env).calls = [.LoadDefaultConfig "us-east-1"]) ∧
    ((getServiceQuotas Sprintf_f env serviceCode).result =
        .ret (.error ("unable to load AWS config: " ++ e)) ∧
      (getServiceQuotas Sprintf_f env serviceCode).calls = [.LoadDefaultConfig "us-east-1"]) ∧
    (∀ m, IsProviderErrorMessage m → "unable to load AWS config: " ++ e ≠ m) := by
  have h' : env.LoadDefaultConfig "us-east-1" = .error e := h
  refine ⟨?_, ?_, ?_, ?_, fun m hm => configError_ne_providerError e m hm⟩
  · simp only [getEC2Instances, h', and_self]
  · simp only [getVPCs, h', and_self]
  · simp only [getEKSClusters, h', and_self]
  · simp only [getServiceQuotas, h', and_self]

theorem config_failure_distinct_witness :
    LoadFails noCredentialsWorld "no credentials" ∧
    (((getEC2Instances noCredentialsWorld).result =
        .error ("unable to load AWS config: " ++ "no credentials") ∧
      (getEC2Instances noCredentialsWorld).calls = [.LoadDefaultConfig "us-east-1"]) ∧
    ((getVPCs noCredentialsWorld).result =
        .error ("unable to load AWS config: " ++ "no credentials") ∧
      (getVPCs noCredentialsWorld).calls = [.LoadDefaultConfig "us-east-1"]) ∧
    ((getEKSClusters noCredentialsWorld).result =
        .error ("unable to load AWS config: " ++ "no credentials") ∧
      (getEKSClusters noCredentialsWorld).calls = [.LoadDefaultConfig "us-east-1"]) ∧
    ((getServiceQuotas sampleSprintf noCredentialsWorld "ec2").result =
        .ret (.error ("unable to load AWS config: " ++ "no credentials")) ∧
      (getServiceQuotas sampleSprintf noCredentialsWorld "ec2").calls =
        [.LoadDefaultConfig "us-east-1"]) ∧
    (∀ m, IsProviderErrorMessage m →
      "unable to load AWS config: " ++ "no credentials" ≠ m)) :=
  ⟨rfl, config_failure_distinct sampleSprintf noCredentialsWorld "ec2" "no credentials" rfl⟩

/-- The messages C9 tells apart do occur: in the world where every provider call fails,
the four operations return the four provider-error messages. -/
theorem providerError_messages_occur :
    IsProviderErrorMessage "failed to describe EC2 instances: Throttling" ∧
    IsProviderErrorMessage "failed to describe VPCs: Throttling" ∧
    IsProviderErrorMessage "failed to list EKS clusters: Throttling" ∧
    IsProviderErrorMessage "failed to get service quota: Throttling" :=
  ⟨⟨Nat, sampleSprintf, throttledWorld, "ec2", { Region := "us-east-1" }, rfl,
      Or.inl ⟨⟨_, rfl⟩, rfl⟩⟩,
   ⟨Nat, sampleSprintf, throttledWorld, "ec2", { Region := "us-east-1" }, rfl,
      Or.inr (Or.inl ⟨⟨_, rfl⟩, rfl⟩)⟩,
   ⟨Nat, sampleSprintf, throttledWorld, "ec2", { Region := "us-east-1" }, rfl,
      Or.inr (Or.inr (Or.inl ⟨⟨_, rfl⟩, rfl⟩))⟩,
   ⟨Nat, sampleSprintf, throttledWorld, "ec2", { Region := "us-east-1" }, rfl,
      Or.inr (Or.inr (Or.inr ⟨⟨_, rfl⟩, rfl⟩))⟩⟩

end GoProj
